/-
  Verification of the ARM CPU core of armemu (src/arm/arm.c):
  architectural state, mode switcher, exception pipeline and the
  condition-code table, shallowly embedded as pure Lean functions.

  Machine words are Nat with explicit reduction mod 2 ^ 32 where the
  C source can overflow.  The cpu_struct layout, the PSR bit layout and
  the pending-exception bit set come from the repository header arm/arm.h,
  which is not part of src/; they are modelled from the spec (data model
  in section 3 and the tables in section 4) and from the standard ARM
  architectural encodings the spec names (mode svc = 0x13 in S1, the
  NZCV top nibble, vectors 0x00..0x1c).
-/
import Mathlib

namespace Armemu

/-- Modelled from the spec: mode field mask of the CPSR (5-bit mode field). -/
def PSR_MODE_MASK : Nat := 0x1f

/-- Modelled from the spec: user mode encoding (S1 gives svc = 0x13; the
seven recognised modes use the standard ARM encodings). -/
def PSR_MODE_user : Nat := 0x10

/-- Modelled from the spec: fiq mode encoding. -/
def PSR_MODE_fiq : Nat := 0x11

/-- Modelled from the spec: irq mode encoding. -/
def PSR_MODE_irq : Nat := 0x12

/-- Modelled from the spec: svc (supervisor) mode encoding, 0x13 as in S1. -/
def PSR_MODE_svc : Nat := 0x13

/-- Modelled from the spec: abort mode encoding. -/
def PSR_MODE_abt : Nat := 0x17

/-- Modelled from the spec: undefined mode encoding. -/
def PSR_MODE_und : Nat := 0x1b

/-- Modelled from the spec: system mode encoding (shares the user bank). -/
def PSR_MODE_sys : Nat := 0x1f

/-- Modelled from the spec: Thumb bit of the CPSR. -/
def PSR_THUMB : Nat := 0x20

/-- Modelled from the spec: FIQ mask bit of the CPSR. -/
def PSR_FIQ_MASK : Nat := 0x40

/-- Modelled from the spec: IRQ mask bit of the CPSR. -/
def PSR_IRQ_MASK : Nat := 0x80

/-- Modelled from the spec: overflow flag, bit 28 of the CPSR (the NZCV
flags occupy the top nibble). -/
def PSR_CC_OVL : Nat := 0x10000000

/-- Modelled from the spec: carry flag, bit 29 of the CPSR. -/
def PSR_CC_CARRY : Nat := 0x20000000

/-- Modelled from the spec: zero flag, bit 30 of the CPSR. -/
def PSR_CC_ZERO : Nat := 0x40000000

/-- Modelled from the spec: negative flag, bit 31 of the CPSR. -/
def PSR_CC_NEG : Nat := 0x80000000

/-- Modelled from the spec: shift placing an NZCV nibble at the top of a PSR. -/
def COND_SHIFT : Nat := 28

/-- Modelled from the spec: pending-exception bit for RESET (the pending
set is a bitset over the seven exception classes; the exact bit choices
only need to be distinct). -/
def EX_RESET : Nat := 0x1

/-- Modelled from the spec: pending-exception bit for UNDEFINED. -/
def EX_UNDEFINED : Nat := 0x2

/-- Modelled from the spec: pending-exception bit for SWI. -/
def EX_SWI : Nat := 0x4

/-- Modelled from the spec: pending-exception bit for PREFETCH abort. -/
def EX_PREFETCH : Nat := 0x8

/-- Modelled from the spec: pending-exception bit for DATA_ABT. -/
def EX_DATA_ABT : Nat := 0x10

/-- Modelled from the spec: pending-exception bit for FIQ. -/
def EX_FIQ : Nat := 0x20

/-- Modelled from the spec: pending-exception bit for IRQ. -/
def EX_IRQ : Nat := 0x40

/-- Modelled from the spec: ARM condition-code encodings 0..15 in the
order of the table in section 4.5. -/
def COND_EQ : Nat := 0

/-- Condition code NE. -/
def COND_NE : Nat := 1

/-- Condition code CS. -/
def COND_CS : Nat := 2

/-- Condition code CC. -/
def COND_CC : Nat := 3

/-- Condition code MI. -/
def COND_MI : Nat := 4

/-- Condition code PL. -/
def COND_PL : Nat := 5

/-- Condition code VS. -/
def COND_VS : Nat := 6

/-- Condition code VC. -/
def COND_VC : Nat := 7

/-- Condition code HI. -/
def COND_HI : Nat := 8

/-- Condition code LS. -/
def COND_LS : Nat := 9

/-- Condition code GE. -/
def COND_GE : Nat := 10

/-- Condition code LT. -/
def COND_LT : Nat := 11

/-- Condition code GT. -/
def COND_GT : Nat := 12

/-- Condition code LE. -/
def COND_LE : Nat := 13

/-- Condition code AL. -/
def COND_AL : Nat := 14

/-- Condition code SPECIAL (0b1111). -/
def COND_SPECIAL : Nat := 15

/-- One banked register set `{r13, r14, spsr}` (struct banked_regs). -/
structure BankedRegs where
  r13 : Nat
  r14 : Nat
  spsr : Nat
deriving DecidableEq, Repr

/-- The fields of `struct cpu_struct` that the arm.c core reads or writes:
active registers, executing pc, CPSR/SPSR, the six banked register sets,
the pending-exception bitset, the coprocessor slots, the weak coprocessor
reference `curr_cp` (modelled as an Option) and the exceptions-taken
performance counter.  Layout modelled from the spec, section 3. -/
structure CpuStruct where
  r : Fin 16 → Nat
  pc : Nat
  cpsr : Nat
  spsr : Nat
  usr_regs : BankedRegs
  fiq_regs : BankedRegs
  irq_regs : BankedRegs
  svc_regs : BankedRegs
  abt_regs : BankedRegs
  und_regs : BankedRegs
  pending_exceptions : Nat
  coproc : Nat → Nat
  curr_cp : Option Unit
  perf_exceptions : Nat

/-- Modelled from the spec: `get_condition(flag)` from the missing header
arm/arm.h masks the CPSR with the flag and tests it for truth. -/
def get_condition (flag : Nat) (c : CpuStruct) : Bool :=
  c.cpsr &&& flag != 0

/-- Modelled from the spec: `set_condition(flag, val)` from the missing
header sets or clears the given CPSR bit (32-bit complement for clearing). -/
def set_condition (flag : Nat) (val : Bool) (c : CpuStruct) : CpuStruct :=
  if val then { c with cpsr := c.cpsr ||| flag }
  else { c with cpsr := c.cpsr &&& (0xffffffff ^^^ flag) }

/-- Modelled from the spec: `put_reg(PC, addr)` is the PC write path the
core consumes from the executor (section 6); it loads the architectural
PC `r[15]` (and the executing-pc field) with the address. -/
def put_reg_pc (addr : Nat) (c : CpuStruct) : CpuStruct :=
  { c with r := Function.update c.r 15 addr, pc := addr }

/-- Identity of a banked register set inside cpu_struct (target of the
twin switch statements in set_cpu_mode). -/
inductive BankId where
  | usr
  | fiq
  | irq
  | svc
  | abt
  | und
deriving DecidableEq, Repr

/-- The mode-to-bank mapping of both switch statements in set_cpu_mode
(arm.c lines 196-245): user and sys share the user bank, the five
exception modes have their own bank, anything else maps to no bank
(the NULL pointer of the C default branches). -/
def mode_bank (mode : Nat) : Option BankId :=
  if mode = PSR_MODE_user then some BankId.usr
  else if mode = PSR_MODE_sys then some BankId.usr
  else if mode = PSR_MODE_fiq then some BankId.fiq
  else if mode = PSR_MODE_irq then some BankId.irq
  else if mode = PSR_MODE_svc then some BankId.svc
  else if mode = PSR_MODE_abt then some BankId.abt
  else if mode = PSR_MODE_und then some BankId.und
  else none

/-- Read a banked register set from the cpu. -/
def getBank (b : BankId) (c : CpuStruct) : BankedRegs :=
  match b with
  | BankId.usr => c.usr_regs
  | BankId.fiq => c.fiq_regs
  | BankId.irq => c.irq_regs
  | BankId.svc => c.svc_regs
  | BankId.abt => c.abt_regs
  | BankId.und => c.und_regs

/-- Write a banked register set of the cpu. -/
def setBank (b : BankId) (v : BankedRegs) (c : CpuStruct) : CpuStruct :=
  match b with
  | BankId.usr => { c with usr_regs := v }
  | BankId.fiq => { c with fiq_regs := v }
  | BankId.irq => { c with irq_regs := v }
  | BankId.svc => { c with svc_regs := v }
  | BankId.abt => { c with abt_regs := v }
  | BankId.und => { c with und_regs := v }

/-- The regs_from block of set_cpu_mode (arm.c lines 248-252): when the
old mode has a bank, the active r13/r14/spsr are written into it; the
NULL case does nothing. -/
def save_banked (o : Option BankId) (c : CpuStruct) : CpuStruct :=
  match o with
  | some b => setBank b { r13 := c.r 13, r14 := c.r 14, spsr := c.spsr } c
  | none => c

/-- The regs_to block of set_cpu_mode (arm.c lines 253-257): when the new
mode has a bank, its contents overwrite the active r13/r14/spsr. -/
def restore_banked (o : Option BankId) (c : CpuStruct) : CpuStruct :=
  match o with
  | some b =>
      let v := getBank b c
      { c with
        r := Function.update (Function.update c.r 13 v.r13) 14 v.r14,
        spsr := v.spsr }
  | none => c

/-- set_cpu_mode (arm.c lines 184-262): early return when the mode does
not change; otherwise save the active r13/r14/spsr into the old mode's
bank (when it has one), load the new mode's bank into the active
registers (when it has one), and replace the CPSR mode field. -/
def set_cpu_mode (new_mode : Nat) (c : CpuStruct) : CpuStruct :=
  let old_mode := c.cpsr &&& PSR_MODE_MASK
  if old_mode = new_mode then c
  else
    let c2 := restore_banked (mode_bank new_mode) (save_banked (mode_bank old_mode) c)
    { c2 with cpsr := (c2.cpsr &&& (0xffffffff ^^^ PSR_MODE_MASK)) ||| new_mode }

/-- install_coprocessor (arm.c lines 300-306): a fatal panic_cpu (the
`none` result) when the coprocessor number is outside 0..15, otherwise
the descriptor is copied into the chosen slot. -/
def install_coprocessor (cp_num : Int) (coproc : Nat) (c : CpuStruct) :
    Option CpuStruct :=
  if cp_num < 0 ∨ cp_num > 15 then none
  else some { c with coproc := Function.update c.coproc cp_num.toNat coproc }

/-- reset_cpu (arm.c lines 100-103): atomically OR the RESET bit into the
pending-exception set. -/
def reset_cpu (c : CpuStruct) : CpuStruct :=
  { c with pending_exceptions := c.pending_exceptions ||| EX_RESET }

/-- raise_irq (arm.c lines 264-268). -/
def raise_irq (c : CpuStruct) : CpuStruct :=
  { c with pending_exceptions := c.pending_exceptions ||| EX_IRQ }

/-- lower_irq (arm.c lines 270-274): atomic AND with the complement. -/
def lower_irq (c : CpuStruct) : CpuStruct :=
  { c with pending_exceptions := c.pending_exceptions &&& (0xffffffff ^^^ EX_IRQ) }

/-- raise_fiq (arm.c lines 276-280). -/
def raise_fiq (c : CpuStruct) : CpuStruct :=
  { c with pending_exceptions := c.pending_exceptions ||| EX_FIQ }

/-- lower_fiq (arm.c lines 282-286). -/
def lower_fiq (c : CpuStruct) : CpuStruct :=
  { c with pending_exceptions := c.pending_exceptions &&& (0xffffffff ^^^ EX_FIQ) }

/-- signal_data_abort (arm.c lines 288-292); the address argument is only
traced, not stored. -/
def signal_data_abort (c : CpuStruct) : CpuStruct :=
  { c with pending_exceptions := c.pending_exceptions ||| EX_DATA_ABT }

/-- signal_prefetch_abort (arm.c lines 294-298). -/
def signal_prefetch_abort (c : CpuStruct) : CpuStruct :=
  { c with pending_exceptions := c.pending_exceptions ||| EX_PREFETCH }

/-- RESET branch of process_pending_exceptions (arm.c lines 416-432):
CPSR is overwritten with just the two interrupt masks, PC is loaded with
vector 0, curr_cp is cleared, the mode is switched to svc, and every
pending bit other than IRQ and FIQ is cleared. -/
def enter_reset (c : CpuStruct) : CpuStruct :=
  let c1 := { c with cpsr := PSR_IRQ_MASK ||| PSR_FIQ_MASK }
  let c2 := put_reg_pc 0x0 c1
  let c3 := { c2 with curr_cp := none }
  let c4 := set_cpu_mode PSR_MODE_svc c3
  let c5 := { c4 with
    pending_exceptions := c4.pending_exceptions &&& (EX_FIQ ||| EX_IRQ) }
  { c5 with perf_exceptions := c5.perf_exceptions + 1 }

/-- The common shape of the six non-reset branches of
process_pending_exceptions (arm.c lines 435-548), which are textual
copies of each other differing only in the target bank, the vector, the
link offset (0 or 4), the target mode and which pending bit (if any) is
cleared: write pc + off + (Thumb?1:0) and the old CPSR into the target
bank, load PC with the vector, clear curr_cp when Thumb was set, clear
Thumb, set the IRQ mask, switch mode, clear the pending bit of
edge-triggered classes, and count the exception. -/
def exception_entry (bank : BankId) (vector link_off m : Nat)
    (clear : Option Nat) (c : CpuStruct) : CpuStruct :=
  let c1 := setBank bank
    { r13 := (getBank bank c).r13,
      r14 := (c.pc + link_off + (if get_condition PSR_THUMB c then 1 else 0)) % 2 ^ 32,
      spsr := c.cpsr } c
  let c2 := put_reg_pc vector c1
  let c3 := if get_condition PSR_THUMB c2 then { c2 with curr_cp := none } else c2
  let c4 := set_condition PSR_THUMB false c3
  let c5 := set_condition PSR_IRQ_MASK true c4
  let c6 := set_cpu_mode m c5
  let c7 :=
    match clear with
    | some mask =>
        { c6 with pending_exceptions := c6.pending_exceptions &&& (0xffffffff ^^^ mask) }
    | none => c6
  { c7 with perf_exceptions := c7.perf_exceptions + 1 }

/-- UNDEFINED branch (arm.c lines 435-452): link value pc + (Thumb?1:0),
vector 0x4, mode und, the UNDEFINED pending bit cleared. -/
def enter_undefined : CpuStruct → CpuStruct :=
  exception_entry BankId.und 0x4 0 PSR_MODE_und (some EX_UNDEFINED)

/-- SWI branch (arm.c lines 455-472): link value pc + (Thumb?1:0),
vector 0x8, mode svc, the SWI pending bit cleared. -/
def enter_swi : CpuStruct → CpuStruct :=
  exception_entry BankId.svc 0x8 0 PSR_MODE_svc (some EX_SWI)

/-- PREFETCH abort branch (arm.c lines 475-492): link value
pc + 4 + (Thumb?1:0), vector 0xc, mode abt, the PREFETCH bit cleared. -/
def enter_prefetch : CpuStruct → CpuStruct :=
  exception_entry BankId.abt 0xc 4 PSR_MODE_abt (some EX_PREFETCH)

/-- DATA_ABT branch (arm.c lines 495-512): link value
pc + 4 + (Thumb?1:0), vector 0x10, mode abt, the DATA_ABT bit cleared. -/
def enter_data_abort : CpuStruct → CpuStruct :=
  exception_entry BankId.abt 0x10 4 PSR_MODE_abt (some EX_DATA_ABT)

/-- FIQ branch (arm.c lines 515-530): link value pc + 4 + (Thumb?1:0),
vector 0x1c, mode fiq; the FIQ pending bit is NOT cleared
(level-triggered). -/
def enter_fiq : CpuStruct → CpuStruct :=
  exception_entry BankId.fiq 0x1c 4 PSR_MODE_fiq none

/-- IRQ branch (arm.c lines 533-548): link value pc + 4 + (Thumb?1:0),
vector 0x18, mode irq; the IRQ pending bit is NOT cleared
(level-triggered). -/
def enter_irq : CpuStruct → CpuStruct :=
  exception_entry BankId.irq 0x18 4 PSR_MODE_irq none

/-- process_pending_exceptions (arm.c lines 410-551): the if chain over
the pending bitset, in source order; FIQ and IRQ are additionally gated
on their CPSR mask bit being clear.  Returns whether an exception was
taken together with the successor state. -/
def process_pending_exceptions (c : CpuStruct) : Bool × CpuStruct :=
  if c.pending_exceptions &&& EX_RESET ≠ 0 then (true, enter_reset c)
  else if c.pending_exceptions &&& EX_UNDEFINED ≠ 0 then (true, enter_undefined c)
  else if c.pending_exceptions &&& EX_SWI ≠ 0 then (true, enter_swi c)
  else if c.pending_exceptions &&& EX_PREFETCH ≠ 0 then (true, enter_prefetch c)
  else if c.pending_exceptions &&& EX_DATA_ABT ≠ 0 then (true, enter_data_abort c)
  else if c.pending_exceptions &&& EX_FIQ ≠ 0 ∧ c.cpsr &&& PSR_FIQ_MASK = 0 then
    (true, enter_fiq c)
  else if c.pending_exceptions &&& EX_IRQ ≠ 0 ∧ c.cpsr &&& PSR_IRQ_MASK = 0 then
    (true, enter_irq c)
  else (false, c)

/-- One iteration of the inner switch of build_condition_table (arm.c
lines 314-396): the bit computed for NZCV nibble i and condition code j,
including the two non-exclusive if branches of COND_LE. -/
def condition_bit (i j : Nat) : Nat :=
  let cpsr := i <<< COND_SHIFT
  if j = COND_EQ then (if cpsr &&& PSR_CC_ZERO ≠ 0 then 1 else 0)
  else if j = COND_NE then (if cpsr &&& PSR_CC_ZERO = 0 then 1 else 0)
  else if j = COND_CS then (if cpsr &&& PSR_CC_CARRY ≠ 0 then 1 else 0)
  else if j = COND_CC then (if cpsr &&& PSR_CC_CARRY = 0 then 1 else 0)
  else if j = COND_MI then (if cpsr &&& PSR_CC_NEG ≠ 0 then 1 else 0)
  else if j = COND_PL then (if cpsr &&& PSR_CC_NEG = 0 then 1 else 0)
  else if j = COND_VS then (if cpsr &&& PSR_CC_OVL ≠ 0 then 1 else 0)
  else if j = COND_VC then (if cpsr &&& PSR_CC_OVL = 0 then 1 else 0)
  else if j = COND_HI then
    (if cpsr &&& (PSR_CC_CARRY ||| PSR_CC_ZERO) = PSR_CC_CARRY then 1 else 0)
  else if j = COND_LS then
    (if cpsr &&& PSR_CC_CARRY = 0 ∨ cpsr &&& PSR_CC_ZERO ≠ 0 then 1 else 0)
  else if j = COND_GE then
    let val := cpsr &&& (PSR_CC_NEG ||| PSR_CC_OVL)
    if val = 0 ∨ val = PSR_CC_NEG ||| PSR_CC_OVL then 1 else 0
  else if j = COND_LT then
    let val := cpsr &&& (PSR_CC_NEG ||| PSR_CC_OVL)
    if val = PSR_CC_NEG ∨ val = PSR_CC_OVL then 1 else 0
  else if j = COND_GT then
    if cpsr &&& PSR_CC_ZERO = 0 then
      let val := cpsr &&& (PSR_CC_NEG ||| PSR_CC_OVL)
      if val = 0 ∨ val = PSR_CC_NEG ||| PSR_CC_OVL then 1 else 0
    else 0
  else if j = COND_LE then
    let bitA := if cpsr &&& PSR_CC_ZERO ≠ 0 then 1 else 0
    let val := cpsr &&& (PSR_CC_NEG ||| PSR_CC_OVL)
    if val = PSR_CC_NEG ∨ val = PSR_CC_OVL then 1 else bitA
  else if j = COND_SPECIAL ∨ j = COND_AL then 1
  else 0

/-- The table entry for NZCV nibble i built by the j loop of
build_condition_table: each set bit is ORed into the entry in order. -/
def condition_table_entry (i : Nat) : Nat :=
  (List.range 16).foldl
    (fun acc j => if condition_bit i j ≠ 0 then acc ||| (1 <<< j) else acc) 0

/-- The sixteen entries built by build_condition_table. -/
def condition_table : List Nat :=
  (List.range 16).map condition_table_entry

/-- The seven exception classes, used to describe the pipeline. -/
inductive ExClass where
  | reset
  | undef
  | swi
  | prefetch
  | data_abt
  | fiq
  | irq
deriving DecidableEq, Repr

/-- The guard of each branch of process_pending_exceptions: the pending
bit is set, and for FIQ and IRQ the corresponding CPSR mask is clear. -/
def wants (k : ExClass) (c : CpuStruct) : Bool :=
  match k with
  | ExClass.reset => decide (c.pending_exceptions &&& EX_RESET ≠ 0)
  | ExClass.undef => decide (c.pending_exceptions &&& EX_UNDEFINED ≠ 0)
  | ExClass.swi => decide (c.pending_exceptions &&& EX_SWI ≠ 0)
  | ExClass.prefetch => decide (c.pending_exceptions &&& EX_PREFETCH ≠ 0)
  | ExClass.data_abt => decide (c.pending_exceptions &&& EX_DATA_ABT ≠ 0)
  | ExClass.fiq =>
      decide (c.pending_exceptions &&& EX_FIQ ≠ 0 ∧ c.cpsr &&& PSR_FIQ_MASK = 0)
  | ExClass.irq =>
      decide (c.pending_exceptions &&& EX_IRQ ≠ 0 ∧ c.cpsr &&& PSR_IRQ_MASK = 0)

/-- The fixed priority order of the spec (section 4.3): RESET first, then
the synchronous classes, then FIQ before IRQ. -/
def exception_priority : List ExClass :=
  [ExClass.reset, ExClass.undef, ExClass.swi, ExClass.prefetch,
   ExClass.data_abt, ExClass.fiq, ExClass.irq]

/-- Written from the spec: the first exception class in priority order
whose guard holds (the first match wins). -/
def first_pending (c : CpuStruct) : Option ExClass :=
  exception_priority.find? (fun k => wants k c)

/-- The entry routine of each class, as dispatch table. -/
def take_exception (k : ExClass) (c : CpuStruct) : CpuStruct :=
  match k with
  | ExClass.reset => enter_reset c
  | ExClass.undef => enter_undefined c
  | ExClass.swi => enter_swi c
  | ExClass.prefetch => enter_prefetch c
  | ExClass.data_abt => enter_data_abort c
  | ExClass.fiq => enter_fiq c
  | ExClass.irq => enter_irq c

/-- The mode entered by each class (column of the section 4.3 table). -/
def target_mode (k : ExClass) : Nat :=
  match k with
  | ExClass.reset => PSR_MODE_svc
  | ExClass.undef => PSR_MODE_und
  | ExClass.swi => PSR_MODE_svc
  | ExClass.prefetch => PSR_MODE_abt
  | ExClass.data_abt => PSR_MODE_abt
  | ExClass.fiq => PSR_MODE_fiq
  | ExClass.irq => PSR_MODE_irq

/-- The bank of the mode entered by each class. -/
def target_bank (k : ExClass) : BankId :=
  match k with
  | ExClass.reset => BankId.svc
  | ExClass.undef => BankId.und
  | ExClass.swi => BankId.svc
  | ExClass.prefetch => BankId.abt
  | ExClass.data_abt => BankId.abt
  | ExClass.fiq => BankId.fiq
  | ExClass.irq => BankId.irq

/-- Written from the spec: the link value of the section 4.3 table for
the non-reset classes, pc plus 0 (UNDEFINED, SWI) or 4 (the others),
plus 1 when Thumb was set, reduced to 32 bits. -/
def spec_link (k : ExClass) (c : CpuStruct) : Nat :=
  let off : Nat :=
    match k with
    | ExClass.undef => 0
    | ExClass.swi => 0
    | _ => 4
  (c.pc + off + (if get_condition PSR_THUMB c then 1 else 0)) % 2 ^ 32

/-- Written from the spec, section 4.5: the algebraic condition predicate
over the NZCV nibble (bit 3 = N, bit 2 = Z, bit 1 = C, bit 0 = V). -/
def cond_pred (i j : Nat) : Bool :=
  let n := i.testBit 3
  let z := i.testBit 2
  let cb := i.testBit 1
  let v := i.testBit 0
  if j = 0 then z
  else if j = 1 then !z
  else if j = 2 then cb
  else if j = 3 then !cb
  else if j = 4 then n
  else if j = 5 then !n
  else if j = 6 then v
  else if j = 7 then !v
  else if j = 8 then cb && !z
  else if j = 9 then !cb || z
  else if j = 10 then n == v
  else if j = 11 then n != v
  else if j = 12 then !z && (n == v)
  else if j = 13 then z || (n != v)
  else if j = 14 then true
  else if j = 15 then true
  else false

/-- A register write by the executor between mode switches (used by the
scenario S5). -/
def write_r (i : Fin 16) (v : Nat) (c : CpuStruct) : CpuStruct :=
  { c with r := Function.update c.r i v }

/-- A base state used by the concrete scenarios: user mode, everything
else zeroed. -/
def baseCpu : CpuStruct where
  r := fun _ => 0
  pc := 0
  cpsr := PSR_MODE_user
  spsr := 0
  usr_regs := ⟨0, 0, 0⟩
  fiq_regs := ⟨0, 0, 0⟩
  irq_regs := ⟨0, 0, 0⟩
  svc_regs := ⟨0, 0, 0⟩
  abt_regs := ⟨0, 0, 0⟩
  und_regs := ⟨0, 0, 0⟩
  pending_exceptions := 0
  coproc := fun _ => 0
  curr_cp := some ()
  perf_exceptions := 0

/-- Scenario S2: user mode, pc 0x1000, SWI pending, Thumb clear. -/
def scenario_swi_user : CpuStruct :=
  { baseCpu with
    pc := 0x1000,
    pending_exceptions := EX_SWI }

/-- Scenario S2, Thumb variant. -/
def scenario_swi_user_thumb : CpuStruct :=
  { baseCpu with
    pc := 0x1000,
    cpsr := PSR_MODE_user ||| PSR_THUMB,
    pending_exceptions := EX_SWI }

/-- Scenario S1: user mode, r0 = 0xAA, reset requested, svc bank holding
recognizable values. -/
def scenario_reset : CpuStruct :=
  reset_cpu { baseCpu with
              r := Function.update baseCpu.r 0 0xAA,
              svc_regs := ⟨7, 8, 9⟩ }

/-- Scenario S4: DATA_ABT and IRQ pending together, both masks clear. -/
def scenario_dabt_irq : CpuStruct :=
  { baseCpu with
    pending_exceptions := EX_DATA_ABT ||| EX_IRQ }

/-- Scenario S3, first half: IRQ raised while the CPSR IRQ mask is set. -/
def scenario_irq_masked : CpuStruct :=
  raise_irq { baseCpu with
              cpsr := PSR_MODE_user ||| PSR_IRQ_MASK,
              pc := 0x2000 }

/-- Scenario S3, second half: the same pending IRQ after the mask bit was
cleared again. -/
def scenario_irq_clear : CpuStruct :=
  { baseCpu with
    pc := 0x2000,
    pending_exceptions := EX_IRQ }

/-- An SWI raised while the cpu is already in svc mode (the same-mode
entry of the frame-effect analysis). -/
def scenario_swi_svc : CpuStruct :=
  { baseCpu with
    cpsr := PSR_MODE_svc,
    pc := 0x3000,
    pending_exceptions := EX_SWI,
    r := fun i => 0x100 + (i : Nat),
    spsr := 0x55,
    svc_regs := ⟨1, 2, 3⟩ }

/-- A reset requested while the cpu is in fiq mode, with recognizable
values in the active registers and in the svc and fiq banks. -/
def scenario_reset_from_fiq : CpuStruct :=
  reset_cpu { baseCpu with
              cpsr := PSR_MODE_fiq,
              r := fun i => 0x200 + (i : Nat),
              spsr := 0x66,
              svc_regs := ⟨0xA1, 0xA2, 0xA3⟩,
              fiq_regs := ⟨0xB1, 0xB2, 0xB3⟩ }

/-- A user-mode state with recognizable active registers, for the
round-trip witness. -/
def scenario_user_regs : CpuStruct :=
  { baseCpu with
    r := fun i => 0x300 + (i : Nat),
    spsr := 0x77 }

/-- A sequence of executor mode switches, folded left to right. -/
def apply_modes (ms : List Nat) (c : CpuStruct) : CpuStruct :=
  ms.foldl (fun s m => set_cpu_mode m s) c

/-- Scenario S5: user to fiq, write r13/r14, back to user, write r13,
back to fiq. -/
def s5_final : CpuStruct :=
  set_cpu_mode PSR_MODE_fiq
    (write_r 13 0xAA
      (set_cpu_mode PSR_MODE_user
        (write_r 14 0xF2 (write_r 13 0xF1
          (set_cpu_mode PSR_MODE_fiq baseCpu)))))

/-- Invariant for the user-mode round trip: either the current mode uses
the user bank and the active r13/r14/spsr hold the initial values, or it
does not and the user bank stores them. -/
def usr_inv (x y z : Nat) (c : CpuStruct) : Prop :=
  (mode_bank (c.cpsr &&& PSR_MODE_MASK) = some BankId.usr ∧
    c.r 13 = x ∧ c.r 14 = y ∧ c.spsr = z) ∨
  (mode_bank (c.cpsr &&& PSR_MODE_MASK) ≠ some BankId.usr ∧
    c.usr_regs = ⟨x, y, z⟩)

/-! Bit-level helper lemmas about the PSR constants. -/

lemma c_all_ones : (0xffffffff : Nat) = 2 ^ 32 - 1 := by norm_num

lemma c_mode_mask : PSR_MODE_MASK = 2 ^ 5 - 1 := by norm_num [PSR_MODE_MASK]

lemma c_thumb : PSR_THUMB = 2 ^ 5 := by norm_num [PSR_THUMB]

lemma c_fiq_mask : PSR_FIQ_MASK = 2 ^ 6 := by norm_num [PSR_FIQ_MASK]

lemma c_irq_mask : PSR_IRQ_MASK = 2 ^ 7 := by norm_num [PSR_IRQ_MASK]

lemma and_two_pow_ne (x n : Nat) : x &&& 2 ^ n ≠ 0 ↔ x.testBit n = true := by
  rw [Nat.and_two_pow]
  have hp : (2 : Nat) ^ n ≠ 0 := Nat.pos_iff_ne_zero.mp (Nat.pow_pos (by omega))
  cases h : x.testBit n <;> simp [hp]

lemma and_two_pow_eq_zero (x n : Nat) : x &&& 2 ^ n = 0 ↔ x.testBit n = false := by
  rw [Nat.and_two_pow]
  have hp : (2 : Nat) ^ n ≠ 0 := Nat.pos_iff_ne_zero.mp (Nat.pow_pos (by omega))
  cases h : x.testBit n <;> simp [hp]

lemma and_two_pow_congr (x y n : Nat) (h : x.testBit n = y.testBit n) :
    x &&& 2 ^ n = y &&& 2 ^ n := by
  rw [Nat.and_two_pow, Nat.and_two_pow, h]

lemma testBit_high_false {m i : Nat} (hm : m < 2 ^ 5) (h5 : 5 ≤ i) :
    m.testBit i = false :=
  Nat.testBit_lt_two_pow
    (lt_of_lt_of_le hm (Nat.pow_le_pow_right (by omega) h5))

lemma mode_field_or (x m : Nat) (hm : m < 2 ^ 5) :
    ((x &&& (0xffffffff ^^^ PSR_MODE_MASK)) ||| m) &&& PSR_MODE_MASK = m := by
  apply Nat.eq_of_testBit_eq
  intro i
  simp only [c_all_ones, c_mode_mask, Nat.testBit_land, Nat.testBit_lor,
    Nat.testBit_xor, Nat.testBit_two_pow_sub_one]
  by_cases h5 : i < 5
  · have h32 : i < 32 := by omega
    simp [h5, h32]
  · have hmb : m.testBit i = false := testBit_high_false hm (by omega)
    simp [h5, hmb]

lemma mode_or_high (x m i : Nat) (h5 : 5 ≤ i) (h32 : i < 32) (hm : m < 2 ^ 5) :
    ((x &&& (0xffffffff ^^^ PSR_MODE_MASK)) ||| m).testBit i = x.testBit i := by
  simp only [c_all_ones, c_mode_mask, Nat.testBit_land, Nat.testBit_lor,
    Nat.testBit_xor, Nat.testBit_two_pow_sub_one]
  simp [show ¬i < 5 by omega, h32, testBit_high_false hm h5]

lemma flags_mode_field (x : Nat) :
    ((x &&& (0xffffffff ^^^ PSR_THUMB)) ||| PSR_IRQ_MASK) &&& PSR_MODE_MASK
      = x &&& PSR_MODE_MASK := by
  apply Nat.eq_of_testBit_eq
  intro i
  simp only [c_all_ones, c_thumb, c_irq_mask, c_mode_mask, Nat.testBit_land,
    Nat.testBit_lor, Nat.testBit_xor, Nat.testBit_two_pow_sub_one,
    Nat.testBit_two_pow]
  by_cases h5 : i < 5
  · have h32 : i < 32 := by omega
    simp [h5, h32, show 5 ≠ i by omega, show 7 ≠ i by omega]
  · simp [h5]

lemma flags_bit5 (x : Nat) :
    ((x &&& (0xffffffff ^^^ PSR_THUMB)) ||| PSR_IRQ_MASK).testBit 5 = false := by
  simp only [c_all_ones, c_thumb, c_irq_mask, Nat.testBit_land, Nat.testBit_lor,
    Nat.testBit_xor, Nat.testBit_two_pow_sub_one, Nat.testBit_two_pow]
  simp

lemma flags_bit6 (x : Nat) :
    ((x &&& (0xffffffff ^^^ PSR_THUMB)) ||| PSR_IRQ_MASK).testBit 6
      = x.testBit 6 := by
  simp only [c_all_ones, c_thumb, c_irq_mask, Nat.testBit_land, Nat.testBit_lor,
    Nat.testBit_xor, Nat.testBit_two_pow_sub_one, Nat.testBit_two_pow]
  simp

lemma flags_bit7 (x : Nat) :
    ((x &&& (0xffffffff ^^^ PSR_THUMB)) ||| PSR_IRQ_MASK).testBit 7 = true := by
  simp only [c_all_ones, c_thumb, c_irq_mask, Nat.testBit_land, Nat.testBit_lor,
    Nat.testBit_xor, Nat.testBit_two_pow_sub_one, Nat.testBit_two_pow]
  simp

/-! Projection lemmas for the bank plumbing of set_cpu_mode. -/

lemma getBank_setBank (b b' : BankId) (v : BankedRegs) (c : CpuStruct) :
    getBank b (setBank b' v c) = if b' = b then v else getBank b c := by
  cases b' <;> cases b <;> simp [getBank, setBank]

lemma setBank_r (b : BankId) (v : BankedRegs) (c : CpuStruct) :
    (setBank b v c).r = c.r := by
  cases b <;> rfl

lemma setBank_cpsr (b : BankId) (v : BankedRegs) (c : CpuStruct) :
    (setBank b v c).cpsr = c.cpsr := by
  cases b <;> rfl

lemma setBank_spsr (b : BankId) (v : BankedRegs) (c : CpuStruct) :
    (setBank b v c).spsr = c.spsr := by
  cases b <;> rfl

lemma setBank_pc (b : BankId) (v : BankedRegs) (c : CpuStruct) :
    (setBank b v c).pc = c.pc := by
  cases b <;> rfl

lemma setBank_pending (b : BankId) (v : BankedRegs) (c : CpuStruct) :
    (setBank b v c).pending_exceptions = c.pending_exceptions := by
  cases b <;> rfl

lemma setBank_curr_cp (b : BankId) (v : BankedRegs) (c : CpuStruct) :
    (setBank b v c).curr_cp = c.curr_cp := by
  cases b <;> rfl

lemma setBank_perf (b : BankId) (v : BankedRegs) (c : CpuStruct) :
    (setBank b v c).perf_exceptions = c.perf_exceptions := by
  cases b <;> rfl

lemma save_banked_r (o : Option BankId) (c : CpuStruct) :
    (save_banked o c).r = c.r := by
  cases o <;> simp [save_banked, setBank_r]

lemma save_banked_cpsr (o : Option BankId) (c : CpuStruct) :
    (save_banked o c).cpsr = c.cpsr := by
  cases o <;> simp [save_banked, setBank_cpsr]

lemma save_banked_spsr (o : Option BankId) (c : CpuStruct) :
    (save_banked o c).spsr = c.spsr := by
  cases o <;> simp [save_banked, setBank_spsr]

lemma save_banked_pc (o : Option BankId) (c : CpuStruct) :
    (save_banked o c).pc = c.pc := by
  cases o <;> simp [save_banked, setBank_pc]

lemma save_banked_pending (o : Option BankId) (c : CpuStruct) :
    (save_banked o c).pending_exceptions = c.pending_exceptions := by
  cases o <;> simp [save_banked, setBank_pending]

lemma save_banked_curr_cp (o : Option BankId) (c : CpuStruct) :
    (save_banked o c).curr_cp = c.curr_cp := by
  cases o <;> simp [save_banked, setBank_curr_cp]

lemma save_banked_perf (o : Option BankId) (c : CpuStruct) :
    (save_banked o c).perf_exceptions = c.perf_exceptions := by
  cases o <;> simp [save_banked, setBank_perf]

lemma getBank_save_banked (b : BankId) (o : Option BankId) (c : CpuStruct) :
    getBank b (save_banked o c)
      = if o = some b then ⟨c.r 13, c.r 14, c.spsr⟩ else getBank b c := by
  cases o with
  | none => simp [save_banked]
  | some b' => simp [save_banked, getBank_setBank]

lemma restore_banked_none (c : CpuStruct) : restore_banked none c = c := rfl

lemma restore_banked_getBank (b : BankId) (o : Option BankId) (c : CpuStruct) :
    getBank b (restore_banked o c) = getBank b c := by
  cases o with
  | none => rfl
  | some x => cases x <;> cases b <;> rfl

lemma restore_banked_cpsr (o : Option BankId) (c : CpuStruct) :
    (restore_banked o c).cpsr = c.cpsr := by
  cases o <;> rfl

lemma restore_banked_pc (o : Option BankId) (c : CpuStruct) :
    (restore_banked o c).pc = c.pc := by
  cases o <;> rfl

lemma restore_banked_pending (o : Option BankId) (c : CpuStruct) :
    (restore_banked o c).pending_exceptions = c.pending_exceptions := by
  cases o <;> rfl

lemma restore_banked_curr_cp (o : Option BankId) (c : CpuStruct) :
    (restore_banked o c).curr_cp = c.curr_cp := by
  cases o <;> rfl

lemma restore_banked_perf (o : Option BankId) (c : CpuStruct) :
    (restore_banked o c).perf_exceptions = c.perf_exceptions := by
  cases o <;> rfl

lemma restore_banked_r_other (o : Option BankId) (c : CpuStruct) (i : Fin 16)
    (h13 : i ≠ 13) (h14 : i ≠ 14) : (restore_banked o c).r i = c.r i := by
  cases o with
  | none => rfl
  | some b =>
      simp [restore_banked, Function.update_noteq h14, Function.update_noteq h13]

lemma restore_banked_r13 (b : BankId) (c : CpuStruct) :
    (restore_banked (some b) c).r 13 = (getBank b c).r13 := by
  simp [restore_banked, Function.update_noteq (show (13 : Fin 16) ≠ 14 by decide)]

lemma restore_banked_r14 (b : BankId) (c : CpuStruct) :
    (restore_banked (some b) c).r 14 = (getBank b c).r14 := by
  simp [restore_banked]

lemma restore_banked_spsr (b : BankId) (c : CpuStruct) :
    (restore_banked (some b) c).spsr = (getBank b c).spsr := by
  simp [restore_banked]

/-! Facts about the mode-to-bank mapping. -/

lemma mode_bank_lt (m : Nat) (h : (mode_bank m).isSome) : m < 2 ^ 5 := by
  unfold mode_bank at h
  split_ifs at h <;>
    simp_all [PSR_MODE_user, PSR_MODE_sys, PSR_MODE_fiq, PSR_MODE_irq,
      PSR_MODE_svc, PSR_MODE_abt, PSR_MODE_und]

lemma mode_bank_eq_usr (m : Nat) :
    mode_bank m = some BankId.usr ↔ m = PSR_MODE_user ∨ m = PSR_MODE_sys := by
  unfold mode_bank
  split_ifs <;>
    simp_all [PSR_MODE_user, PSR_MODE_sys, PSR_MODE_fiq, PSR_MODE_irq,
      PSR_MODE_svc, PSR_MODE_abt, PSR_MODE_und]

lemma mode_bank_eq_fiq (m : Nat) :
    mode_bank m = some BankId.fiq ↔ m = PSR_MODE_fiq := by
  unfold mode_bank
  split_ifs <;>
    simp_all [PSR_MODE_user, PSR_MODE_sys, PSR_MODE_fiq, PSR_MODE_irq,
      PSR_MODE_svc, PSR_MODE_abt, PSR_MODE_und]

lemma mode_bank_eq_irq (m : Nat) :
    mode_bank m = some BankId.irq ↔ m = PSR_MODE_irq := by
  unfold mode_bank
  split_ifs <;>
    simp_all [PSR_MODE_user, PSR_MODE_sys, PSR_MODE_fiq, PSR_MODE_irq,
      PSR_MODE_svc, PSR_MODE_abt, PSR_MODE_und]

lemma mode_bank_eq_svc (m : Nat) :
    mode_bank m = some BankId.svc ↔ m = PSR_MODE_svc := by
  unfold mode_bank
  split_ifs <;>
    simp_all [PSR_MODE_user, PSR_MODE_sys, PSR_MODE_fiq, PSR_MODE_irq,
      PSR_MODE_svc, PSR_MODE_abt, PSR_MODE_und]

lemma mode_bank_eq_abt (m : Nat) :
    mode_bank m = some BankId.abt ↔ m = PSR_MODE_abt := by
  unfold mode_bank
  split_ifs <;>
    simp_all [PSR_MODE_user, PSR_MODE_sys, PSR_MODE_fiq, PSR_MODE_irq,
      PSR_MODE_svc, PSR_MODE_abt, PSR_MODE_und]

lemma mode_bank_eq_und (m : Nat) :
    mode_bank m = some BankId.und ↔ m = PSR_MODE_und := by
  unfold mode_bank
  split_ifs <;>
    simp_all [PSR_MODE_user, PSR_MODE_sys, PSR_MODE_fiq, PSR_MODE_irq,
      PSR_MODE_svc, PSR_MODE_abt, PSR_MODE_und]

/-! Projection lemmas for set_cpu_mode itself. -/

lemma set_cpu_mode_same (m : Nat) (c : CpuStruct)
    (h : c.cpsr &&& PSR_MODE_MASK = m) : set_cpu_mode m c = c := by
  simp [set_cpu_mode, h]

lemma getBank_set_cpsr (b : BankId) (c : CpuStruct) (v : Nat) :
    getBank b { c with cpsr := v } = getBank b c := by
  cases b <;> rfl

lemma set_cpu_mode_cpsr (m : Nat) (c : CpuStruct) :
    (set_cpu_mode m c).cpsr
      = if c.cpsr &&& PSR_MODE_MASK = m then c.cpsr
        else (c.cpsr &&& (0xffffffff ^^^ PSR_MODE_MASK)) ||| m := by
  by_cases h : c.cpsr &&& PSR_MODE_MASK = m <;>
    simp [set_cpu_mode, h, restore_banked_cpsr, save_banked_cpsr]

lemma set_cpu_mode_mode (m : Nat) (c : CpuStruct) (hm : m < 2 ^ 5) :
    (set_cpu_mode m c).cpsr &&& PSR_MODE_MASK = m := by
  rw [set_cpu_mode_cpsr]
  split_ifs with h
  · exact h
  · exact mode_field_or c.cpsr m hm

lemma set_cpu_mode_pc (m : Nat) (c : CpuStruct) :
    (set_cpu_mode m c).pc = c.pc := by
  by_cases h : c.cpsr &&& PSR_MODE_MASK = m <;>
    simp [set_cpu_mode, h, restore_banked_pc, save_banked_pc]

lemma set_cpu_mode_pending (m : Nat) (c : CpuStruct) :
    (set_cpu_mode m c).pending_exceptions = c.pending_exceptions := by
  by_cases h : c.cpsr &&& PSR_MODE_MASK = m <;>
    simp [set_cpu_mode, h, restore_banked_pending, save_banked_pending]

lemma set_cpu_mode_curr_cp (m : Nat) (c : CpuStruct) :
    (set_cpu_mode m c).curr_cp = c.curr_cp := by
  by_cases h : c.cpsr &&& PSR_MODE_MASK = m <;>
    simp [set_cpu_mode, h, restore_banked_curr_cp, save_banked_curr_cp]

lemma set_cpu_mode_perf (m : Nat) (c : CpuStruct) :
    (set_cpu_mode m c).perf_exceptions = c.perf_exceptions := by
  by_cases h : c.cpsr &&& PSR_MODE_MASK = m <;>
    simp [set_cpu_mode, h, restore_banked_perf, save_banked_perf]

lemma set_cpu_mode_r_other (m : Nat) (c : CpuStruct) (i : Fin 16)
    (h13 : i ≠ 13) (h14 : i ≠ 14) : (set_cpu_mode m c).r i = c.r i := by
  by_cases h : c.cpsr &&& PSR_MODE_MASK = m <;>
    simp [set_cpu_mode, h, restore_banked_r_other _ _ i h13 h14, save_banked_r]

lemma set_cpu_mode_getBank (m : Nat) (c : CpuStruct) (b : BankId) :
    getBank b (set_cpu_mode m c)
      = if mode_bank (c.cpsr &&& PSR_MODE_MASK) = some b ∧
           c.cpsr &&& PSR_MODE_MASK ≠ m
        then ⟨c.r 13, c.r 14, c.spsr⟩ else getBank b c := by
  by_cases h : c.cpsr &&& PSR_MODE_MASK = m
  · simp [set_cpu_mode, h]
  · simp only [set_cpu_mode, if_neg h]
    rw [getBank_set_cpsr, restore_banked_getBank, getBank_save_banked]
    by_cases hb : mode_bank (c.cpsr &&& PSR_MODE_MASK) = some b
    · simp [hb, h]
    · simp [hb]

lemma set_cpu_mode_usr_regs (m : Nat) (c : CpuStruct) :
    (set_cpu_mode m c).usr_regs
      = if mode_bank (c.cpsr &&& PSR_MODE_MASK) = some BankId.usr ∧
           c.cpsr &&& PSR_MODE_MASK ≠ m
        then ⟨c.r 13, c.r 14, c.spsr⟩ else c.usr_regs := by
  simpa [getBank] using set_cpu_mode_getBank m c BankId.usr

lemma set_cpu_mode_fiq_regs (m : Nat) (c : CpuStruct) :
    (set_cpu_mode m c).fiq_regs
      = if mode_bank (c.cpsr &&& PSR_MODE_MASK) = some BankId.fiq ∧
           c.cpsr &&& PSR_MODE_MASK ≠ m
        then ⟨c.r 13, c.r 14, c.spsr⟩ else c.fiq_regs := by
  simpa [getBank] using set_cpu_mode_getBank m c BankId.fiq

lemma set_cpu_mode_irq_regs (m : Nat) (c : CpuStruct) :
    (set_cpu_mode m c).irq_regs
      = if mode_bank (c.cpsr &&& PSR_MODE_MASK) = some BankId.irq ∧
           c.cpsr &&& PSR_MODE_MASK ≠ m
        then ⟨c.r 13, c.r 14, c.spsr⟩ else c.irq_regs := by
  simpa [getBank] using set_cpu_mode_getBank m c BankId.irq

lemma set_cpu_mode_svc_regs (m : Nat) (c : CpuStruct) :
    (set_cpu_mode m c).svc_regs
      = if mode_bank (c.cpsr &&& PSR_MODE_MASK) = some BankId.svc ∧
           c.cpsr &&& PSR_MODE_MASK ≠ m
        then ⟨c.r 13, c.r 14, c.spsr⟩ else c.svc_regs := by
  simpa [getBank] using set_cpu_mode_getBank m c BankId.svc

lemma set_cpu_mode_abt_regs (m : Nat) (c : CpuStruct) :
    (set_cpu_mode m c).abt_regs
      = if mode_bank (c.cpsr &&& PSR_MODE_MASK) = some BankId.abt ∧
           c.cpsr &&& PSR_MODE_MASK ≠ m
        then ⟨c.r 13, c.r 14, c.spsr⟩ else c.abt_regs := by
  simpa [getBank] using set_cpu_mode_getBank m c BankId.abt

lemma set_cpu_mode_und_regs (m : Nat) (c : CpuStruct) :
    (set_cpu_mode m c).und_regs
      = if mode_bank (c.cpsr &&& PSR_MODE_MASK) = some BankId.und ∧
           c.cpsr &&& PSR_MODE_MASK ≠ m
        then ⟨c.r 13, c.r 14, c.spsr⟩ else c.und_regs := by
  simpa [getBank] using set_cpu_mode_getBank m c BankId.und

/-! Characterization lemmas for the common exception-entry pipeline. -/

lemma exception_entry_cpsr (bank : BankId) (v off m : Nat) (cl : Option Nat)
    (c : CpuStruct) :
    (exception_entry bank v off m cl c).cpsr
      = (set_cpu_mode m { c with
           cpsr := (c.cpsr &&& (0xffffffff ^^^ PSR_THUMB)) ||| PSR_IRQ_MASK }).cpsr := by
  cases cl <;>
    by_cases ht : c.cpsr &&& PSR_THUMB = 0 <;>
      simp [exception_entry, put_reg_pc, set_condition, get_condition, ht,
        set_cpu_mode_cpsr, setBank_cpsr]

lemma exception_entry_mode (bank : BankId) (v off m : Nat) (cl : Option Nat)
    (c : CpuStruct) (hm : m < 2 ^ 5) :
    (exception_entry bank v off m cl c).cpsr &&& PSR_MODE_MASK = m := by
  rw [exception_entry_cpsr]
  exact set_cpu_mode_mode m _ hm

lemma exception_entry_bit5 (bank : BankId) (v off m : Nat) (cl : Option Nat)
    (c : CpuStruct) (hm : m < 2 ^ 5) :
    (exception_entry bank v off m cl c).cpsr.testBit 5 = false := by
  rw [exception_entry_cpsr, set_cpu_mode_cpsr]
  split_ifs with h
  · exact flags_bit5 c.cpsr
  · rw [mode_or_high _ m 5 (by omega) (by omega) hm]
    exact flags_bit5 c.cpsr

lemma exception_entry_bit6 (bank : BankId) (v off m : Nat) (cl : Option Nat)
    (c : CpuStruct) (hm : m < 2 ^ 5) :
    (exception_entry bank v off m cl c).cpsr.testBit 6 = c.cpsr.testBit 6 := by
  rw [exception_entry_cpsr, set_cpu_mode_cpsr]
  split_ifs with h
  · exact flags_bit6 c.cpsr
  · rw [mode_or_high _ m 6 (by omega) (by omega) hm]
    exact flags_bit6 c.cpsr

lemma exception_entry_bit7 (bank : BankId) (v off m : Nat) (cl : Option Nat)
    (c : CpuStruct) (hm : m < 2 ^ 5) :
    (exception_entry bank v off m cl c).cpsr.testBit 7 = true := by
  rw [exception_entry_cpsr, set_cpu_mode_cpsr]
  split_ifs with h
  · exact flags_bit7 c.cpsr
  · rw [mode_or_high _ m 7 (by omega) (by omega) hm]
    exact flags_bit7 c.cpsr

lemma exception_entry_pending_some (bank : BankId) (v off m mask : Nat)
    (c : CpuStruct) :
    (exception_entry bank v off m (some mask) c).pending_exceptions
      = c.pending_exceptions &&& (0xffffffff ^^^ mask) := by
  cases bank <;>
    by_cases ht : c.cpsr &&& PSR_THUMB = 0 <;>
      simp [exception_entry, put_reg_pc, set_condition, get_condition, ht,
        set_cpu_mode_pending, setBank, getBank]

lemma exception_entry_pending_none (bank : BankId) (v off m : Nat)
    (c : CpuStruct) :
    (exception_entry bank v off m none c).pending_exceptions
      = c.pending_exceptions := by
  cases bank <;>
    by_cases ht : c.cpsr &&& PSR_THUMB = 0 <;>
      simp [exception_entry, put_reg_pc, set_condition, get_condition, ht,
        set_cpu_mode_pending, setBank, getBank]

lemma exception_entry_r15 (bank : BankId) (v off m : Nat) (cl : Option Nat)
    (c : CpuStruct) :
    (exception_entry bank v off m cl c).r 15 = v := by
  cases cl <;> cases bank <;>
    by_cases ht : c.cpsr &&& PSR_THUMB = 0 <;>
      simp [exception_entry, put_reg_pc, set_condition, get_condition, ht,
        set_cpu_mode_r_other _ _ 15 (by decide) (by decide), setBank, getBank]

lemma exception_entry_pc (bank : BankId) (v off m : Nat) (cl : Option Nat)
    (c : CpuStruct) :
    (exception_entry bank v off m cl c).pc = v := by
  cases cl <;> cases bank <;>
    by_cases ht : c.cpsr &&& PSR_THUMB = 0 <;>
      simp [exception_entry, put_reg_pc, set_condition, get_condition, ht,
        set_cpu_mode_pc, setBank, getBank]

lemma exception_entry_r_other (bank : BankId) (v off m : Nat) (cl : Option Nat)
    (c : CpuStruct) (i : Fin 16) (h13 : i ≠ 13) (h14 : i ≠ 14) (h15 : i ≠ 15) :
    (exception_entry bank v off m cl c).r i = c.r i := by
  cases cl <;> cases bank <;>
    by_cases ht : c.cpsr &&& PSR_THUMB = 0 <;>
      simp [exception_entry, put_reg_pc, set_condition, get_condition, ht,
        set_cpu_mode_r_other _ _ i h13 h14, setBank, getBank,
        Function.update_noteq h15]

lemma exception_entry_active_same (bank : BankId) (v off m : Nat) (cl : Option Nat)
    (c : CpuStruct) (h : c.cpsr &&& PSR_MODE_MASK = m) :
    (exception_entry bank v off m cl c).r 13 = c.r 13 ∧
    (exception_entry bank v off m cl c).r 14 = c.r 14 ∧
    (exception_entry bank v off m cl c).spsr = c.spsr := by
  cases cl <;> cases bank <;>
    by_cases ht : c.cpsr &&& PSR_THUMB = 0 <;>
      simp [exception_entry, put_reg_pc, set_condition, get_condition, ht,
        set_cpu_mode_same, flags_mode_field, h, setBank, getBank,
        Function.update_noteq (show (13 : Fin 16) ≠ 15 by decide),
        Function.update_noteq (show (14 : Fin 16) ≠ 15 by decide)]

/-! Per-class facts about the target bank after an exception entry. -/

lemma enter_undefined_und (c : CpuStruct) :
    (enter_undefined c).und_regs
      = ⟨c.und_regs.r13,
         (c.pc + 0 + (if get_condition PSR_THUMB c then 1 else 0)) % 2 ^ 32,
         c.cpsr⟩ := by
  by_cases ht : c.cpsr &&& PSR_THUMB = 0 <;>
    simp [enter_undefined, exception_entry, put_reg_pc, set_condition,
      get_condition, ht, setBank, getBank, set_cpu_mode_und_regs,
      flags_mode_field, mode_bank_eq_und]

lemma enter_swi_svc (c : CpuStruct) :
    (enter_swi c).svc_regs
      = ⟨c.svc_regs.r13,
         (c.pc + 0 + (if get_condition PSR_THUMB c then 1 else 0)) % 2 ^ 32,
         c.cpsr⟩ := by
  by_cases ht : c.cpsr &&& PSR_THUMB = 0 <;>
    simp [enter_swi, exception_entry, put_reg_pc, set_condition, get_condition,
      ht, setBank, getBank, set_cpu_mode_svc_regs, flags_mode_field,
      mode_bank_eq_svc]

lemma enter_prefetch_abt (c : CpuStruct) :
    (enter_prefetch c).abt_regs
      = ⟨c.abt_regs.r13,
         (c.pc + 4 + (if get_condition PSR_THUMB c then 1 else 0)) % 2 ^ 32,
         c.cpsr⟩ := by
  by_cases ht : c.cpsr &&& PSR_THUMB = 0 <;>
    simp [enter_prefetch, exception_entry, put_reg_pc, set_condition,
      get_condition, ht, setBank, getBank, set_cpu_mode_abt_regs,
      flags_mode_field, mode_bank_eq_abt]

lemma enter_data_abort_abt (c : CpuStruct) :
    (enter_data_abort c).abt_regs
      = ⟨c.abt_regs.r13,
         (c.pc + 4 + (if get_condition PSR_THUMB c then 1 else 0)) % 2 ^ 32,
         c.cpsr⟩ := by
  by_cases ht : c.cpsr &&& PSR_THUMB = 0 <;>
    simp [enter_data_abort, exception_entry, put_reg_pc, set_condition,
      get_condition, ht, setBank, getBank, set_cpu_mode_abt_regs,
      flags_mode_field, mode_bank_eq_abt]

lemma enter_fiq_fiq (c : CpuStruct) :
    (enter_fiq c).fiq_regs
      = ⟨c.fiq_regs.r13,
         (c.pc + 4 + (if get_condition PSR_THUMB c then 1 else 0)) % 2 ^ 32,
         c.cpsr⟩ := by
  by_cases ht : c.cpsr &&& PSR_THUMB = 0 <;>
    simp [enter_fiq, exception_entry, put_reg_pc, set_condition, get_condition,
      ht, setBank, getBank, set_cpu_mode_fiq_regs, flags_mode_field,
      mode_bank_eq_fiq]

lemma enter_irq_irq (c : CpuStruct) :
    (enter_irq c).irq_regs
      = ⟨c.irq_regs.r13,
         (c.pc + 4 + (if get_condition PSR_THUMB c then 1 else 0)) % 2 ^ 32,
         c.cpsr⟩ := by
  by_cases ht : c.cpsr &&& PSR_THUMB = 0 <;>
    simp [enter_irq, exception_entry, put_reg_pc, set_condition, get_condition,
      ht, setBank, getBank, set_cpu_mode_irq_regs, flags_mode_field,
      mode_bank_eq_irq]

/-! Facts about the RESET branch. -/

lemma enter_reset_cpsr (c : CpuStruct) : (enter_reset c).cpsr = 0xD3 := by
  simp [enter_reset, put_reg_pc, set_cpu_mode_cpsr, PSR_IRQ_MASK, PSR_FIQ_MASK,
    PSR_MODE_MASK, PSR_MODE_svc]
  decide

lemma enter_reset_r15 (c : CpuStruct) : (enter_reset c).r 15 = 0 := by
  simp [enter_reset, put_reg_pc,
    set_cpu_mode_r_other _ _ 15 (by decide) (by decide)]

lemma enter_reset_active (c : CpuStruct) :
    (enter_reset c).r 13 = c.svc_regs.r13 ∧
    (enter_reset c).r 14 = c.svc_regs.r14 ∧
    (enter_reset c).spsr = c.svc_regs.spsr := by
  simp [enter_reset, put_reg_pc, set_cpu_mode, PSR_IRQ_MASK, PSR_FIQ_MASK,
    PSR_MODE_MASK, PSR_MODE_svc, mode_bank, PSR_MODE_user, PSR_MODE_sys,
    PSR_MODE_fiq, PSR_MODE_irq, PSR_MODE_abt, PSR_MODE_und, save_banked,
    restore_banked, getBank,
    Function.update_noteq (show (13 : Fin 16) ≠ 15 by decide),
    Function.update_noteq (show (13 : Fin 16) ≠ 14 by decide),
    Function.update_noteq (show (14 : Fin 16) ≠ 15 by decide)]

lemma enter_reset_r_low (c : CpuStruct) (i : Fin 16) (hi : i.val ≤ 12) :
    (enter_reset c).r i = c.r i := by
  have h13 : i ≠ 13 := by
    intro h
    rw [h] at hi
    exact absurd hi (by decide)
  have h14 : i ≠ 14 := by
    intro h
    rw [h] at hi
    exact absurd hi (by decide)
  have h15 : i ≠ 15 := by
    intro h
    rw [h] at hi
    exact absurd hi (by decide)
  simp [enter_reset, put_reg_pc, set_cpu_mode, PSR_IRQ_MASK, PSR_FIQ_MASK,
    PSR_MODE_MASK, PSR_MODE_svc, mode_bank, PSR_MODE_user, PSR_MODE_sys,
    PSR_MODE_fiq, PSR_MODE_irq, PSR_MODE_abt, PSR_MODE_und, save_banked,
    restore_banked, getBank, Function.update_noteq h13,
    Function.update_noteq h14, Function.update_noteq h15]

lemma enter_reset_curr_cp (c : CpuStruct) : (enter_reset c).curr_cp = none := by
  simp [enter_reset, put_reg_pc, set_cpu_mode_curr_cp]

lemma enter_reset_pending (c : CpuStruct) :
    (enter_reset c).pending_exceptions
      = c.pending_exceptions &&& (EX_FIQ ||| EX_IRQ) := by
  simp [enter_reset, put_reg_pc, set_cpu_mode_pending]

lemma enter_reset_banks (c : CpuStruct) :
    (enter_reset c).usr_regs = c.usr_regs ∧
    (enter_reset c).fiq_regs = c.fiq_regs ∧
    (enter_reset c).irq_regs = c.irq_regs ∧
    (enter_reset c).svc_regs = c.svc_regs ∧
    (enter_reset c).abt_regs = c.abt_regs ∧
    (enter_reset c).und_regs = c.und_regs := by
  simp [enter_reset, put_reg_pc, set_cpu_mode, PSR_IRQ_MASK, PSR_FIQ_MASK,
    PSR_MODE_MASK, PSR_MODE_svc, mode_bank, PSR_MODE_user, PSR_MODE_sys,
    PSR_MODE_fiq, PSR_MODE_irq, PSR_MODE_abt, PSR_MODE_und, save_banked,
    restore_banked, getBank]

lemma set_cpu_mode_active (m : Nat) (c : CpuStruct) (b : BankId)
    (hb : mode_bank m = some b) (h : c.cpsr &&& PSR_MODE_MASK ≠ m) :
    (set_cpu_mode m c).r 13
        = (if mode_bank (c.cpsr &&& PSR_MODE_MASK) = some b then c.r 13
           else (getBank b c).r13) ∧
    (set_cpu_mode m c).r 14
        = (if mode_bank (c.cpsr &&& PSR_MODE_MASK) = some b then c.r 14
           else (getBank b c).r14) ∧
    (set_cpu_mode m c).spsr
        = (if mode_bank (c.cpsr &&& PSR_MODE_MASK) = some b then c.spsr
           else (getBank b c).spsr) := by
  simp only [set_cpu_mode, if_neg h, hb]
  refine ⟨?_, ?_, ?_⟩ <;>
    simp [restore_banked_r13, restore_banked_r14, restore_banked_spsr,
      getBank_save_banked] <;>
    by_cases hc : mode_bank (c.cpsr &&& PSR_MODE_MASK) = some b <;>
      simp [hc]

lemma usr_inv_step (x y z m : Nat) (c : CpuStruct) (hm : (mode_bank m).isSome)
    (h : usr_inv x y z c) : usr_inv x y z (set_cpu_mode m c) := by
  by_cases hsame : c.cpsr &&& PSR_MODE_MASK = m
  · rwa [set_cpu_mode_same m c hsame]
  · obtain ⟨b, hb⟩ := Option.isSome_iff_exists.mp hm
    have hmode : (set_cpu_mode m c).cpsr &&& PSR_MODE_MASK = m :=
      set_cpu_mode_mode m c (mode_bank_lt m hm)
    have hact := set_cpu_mode_active m c b hb hsame
    by_cases hbu : b = BankId.usr
    · subst hbu
      left
      refine ⟨by rw [hmode]; exact hb, ?_, ?_, ?_⟩ <;>
        rcases h with ⟨hcb, h13, h14, hsp⟩ | ⟨hcb, hur⟩
      · rw [hact.1, if_pos hcb]; exact h13
      · rw [hact.1, if_neg hcb]; simp [getBank, hur]
      · rw [hact.2.1, if_pos hcb]; exact h14
      · rw [hact.2.1, if_neg hcb]; simp [getBank, hur]
      · rw [hact.2.2, if_pos hcb]; exact hsp
      · rw [hact.2.2, if_neg hcb]; simp [getBank, hur]
    · right
      have husr : (set_cpu_mode m c).usr_regs = ⟨x, y, z⟩ := by
        rw [set_cpu_mode_usr_regs]
        rcases h with ⟨hcb, h13, h14, hsp⟩ | ⟨hcb, hur⟩
        · rw [if_pos ⟨hcb, hsame⟩, h13, h14, hsp]
        · rw [if_neg (by intro hx; exact hcb hx.1), hur]
      refine ⟨?_, husr⟩
      rw [hmode, hb]
      intro hx
      exact hbu (Option.some_inj.mp hx)

lemma usr_inv_fold (x y z : Nat) (ms : List Nat) (c : CpuStruct)
    (hms : ∀ m ∈ ms, (mode_bank m).isSome) (h : usr_inv x y z c) :
    usr_inv x y z (apply_modes ms c) := by
  induction ms generalizing c with
  | nil => simpa [apply_modes] using h
  | cons m ms ih =>
      simp only [apply_modes, List.foldl_cons] at ih ⊢
      exact ih (set_cpu_mode m c) (fun a ha => hms a (by simp [ha]))
        (usr_inv_step x y z m c (hms m (by simp)) h)

/-! The pipeline as a priority selection. -/

lemma process_spec (c : CpuStruct) :
    process_pending_exceptions c
      = match first_pending c with
        | none => (false, c)
        | some k => (true, take_exception k c) := by
  by_cases h1 : c.pending_exceptions &&& EX_RESET ≠ 0 <;>
    by_cases h2 : c.pending_exceptions &&& EX_UNDEFINED ≠ 0 <;>
      by_cases h3 : c.pending_exceptions &&& EX_SWI ≠ 0 <;>
        by_cases h4 : c.pending_exceptions &&& EX_PREFETCH ≠ 0 <;>
          by_cases h5 : c.pending_exceptions &&& EX_DATA_ABT ≠ 0 <;>
            by_cases h6 : c.pending_exceptions &&& EX_FIQ ≠ 0 ∧
                c.cpsr &&& PSR_FIQ_MASK = 0 <;>
              by_cases h7 : c.pending_exceptions &&& EX_IRQ ≠ 0 ∧
                  c.cpsr &&& PSR_IRQ_MASK = 0 <;>
                simp [process_pending_exceptions, first_pending,
                  exception_priority, List.find?, wants, take_exception,
                  h1, h2, h3, h4, h5, h6, h7]

end Armemu

namespace Armemu

/-- Claim C1: process_pending_exceptions evaluates the pending classes in
the fixed priority order RESET, UNDEFINED, SWI, PREFETCH, DATA_ABT, FIQ
(mask permitting), IRQ (mask permitting); the first match is the only one
processed and the call returns true, so with DATA_ABT and IRQ pending and
both masks clear one call takes DATA_ABT (vector 0x10, mode abt) and
leaves the IRQ bit pending; with no match it returns false with the state
unchanged. -/
theorem exception_priority_order :
    (∀ c : CpuStruct,
      process_pending_exceptions c
        = match first_pending c with
          | none => (false, c)
          | some k => (true, take_exception k c)) ∧
    (process_pending_exceptions scenario_dabt_irq).1 = true ∧
    (process_pending_exceptions scenario_dabt_irq).2.r 15 = 0x10 ∧
    (process_pending_exceptions scenario_dabt_irq).2.cpsr &&& PSR_MODE_MASK
        = PSR_MODE_abt ∧
    (process_pending_exceptions scenario_dabt_irq).2.pending_exceptions
        &&& EX_IRQ ≠ 0 ∧
    (process_pending_exceptions scenario_dabt_irq).2.pending_exceptions
        &&& EX_DATA_ABT = 0 :=
  ⟨process_spec, by decide, by decide, by decide, by decide, by decide⟩

/-- Claim C5: after build_condition_table, bit j of entry i equals the
section 4.5 predicate for condition code j at NZCV nibble i, the
two-branch COND_LE computation included. -/
theorem condition_table_matches_predicates :
    ∀ i : Fin 16, ∀ j : Fin 16,
      condition_table.getD i.val 0 >>> j.val &&& 1
        = (if cond_pred i.val j.val then 1 else 0) := by
  decide

/-- Claim C3: with RESET pending, the call returns true, the CPSR mode
field becomes svc with both interrupt masks set, PC is 0, r0..r12 are
unchanged, curr_cp is cleared, and every pending bit except IRQ and FIQ
is cleared. -/
theorem reset_exception_state (c : CpuStruct)
    (h : c.pending_exceptions &&& EX_RESET ≠ 0) :
    (process_pending_exceptions c).1 = true ∧
    (process_pending_exceptions c).2.cpsr &&& PSR_MODE_MASK = PSR_MODE_svc ∧
    (process_pending_exceptions c).2.cpsr &&& PSR_IRQ_MASK ≠ 0 ∧
    (process_pending_exceptions c).2.cpsr &&& PSR_FIQ_MASK ≠ 0 ∧
    (process_pending_exceptions c).2.r 15 = 0 ∧
    (∀ i : Fin 16, i.val ≤ 12 → (process_pending_exceptions c).2.r i = c.r i) ∧
    (process_pending_exceptions c).2.curr_cp = none ∧
    (process_pending_exceptions c).2.pending_exceptions
      = c.pending_exceptions &&& (EX_FIQ ||| EX_IRQ) := by
  have hp : process_pending_exceptions c = (true, enter_reset c) := by
    simp [process_pending_exceptions, h]
  rw [hp]
  refine ⟨rfl, ?_, ?_, ?_, enter_reset_r15 c, enter_reset_r_low c,
    enter_reset_curr_cp c, enter_reset_pending c⟩ <;>
    rw [enter_reset_cpsr] <;> decide

/-- Witness for C3 at the S1 scenario. -/
theorem reset_exception_state_witness :
    scenario_reset.pending_exceptions &&& EX_RESET ≠ 0 ∧
    (process_pending_exceptions scenario_reset).2.cpsr &&& PSR_MODE_MASK
        = PSR_MODE_svc ∧
    (process_pending_exceptions scenario_reset).2.r 0 = 0xAA := by
  refine ⟨by decide, (reset_exception_state scenario_reset (by decide)).2.1, ?_⟩
  rw [(reset_exception_state scenario_reset (by decide)).2.2.2.2.2.1 0 (by decide)]
  decide

/-- Claim C10: a RESET entry saves no bank (the overwritten CPSR makes
the old mode read as 0, which maps to no bank): every bank keeps its
contents, while the active r13/r14/spsr are replaced by the stored svc
bank values. -/
theorem reset_skips_bank_save (c : CpuStruct)
    (h : c.pending_exceptions &&& EX_RESET ≠ 0) :
    (process_pending_exceptions c).2.usr_regs = c.usr_regs ∧
    (process_pending_exceptions c).2.fiq_regs = c.fiq_regs ∧
    (process_pending_exceptions c).2.irq_regs = c.irq_regs ∧
    (process_pending_exceptions c).2.svc_regs = c.svc_regs ∧
    (process_pending_exceptions c).2.abt_regs = c.abt_regs ∧
    (process_pending_exceptions c).2.und_regs = c.und_regs ∧
    (process_pending_exceptions c).2.r 13 = c.svc_regs.r13 ∧
    (process_pending_exceptions c).2.r 14 = c.svc_regs.r14 ∧
    (process_pending_exceptions c).2.spsr = c.svc_regs.spsr := by
  have hp : process_pending_exceptions c = (true, enter_reset c) := by
    simp [process_pending_exceptions, h]
  rw [hp]
  obtain ⟨b1, b2, b3, b4, b5, b6⟩ := enter_reset_banks c
  obtain ⟨a1, a2, a3⟩ := enter_reset_active c
  exact ⟨b1, b2, b3, b4, b5, b6, a1, a2, a3⟩

/-- Witness for C10: resetting from fiq mode keeps the stale fiq bank and
loads the svc bank into the active registers. -/
theorem reset_skips_bank_save_witness :
    scenario_reset_from_fiq.pending_exceptions &&& EX_RESET ≠ 0 ∧
    (process_pending_exceptions scenario_reset_from_fiq).2.fiq_regs
        = ⟨0xB1, 0xB2, 0xB3⟩ ∧
    (process_pending_exceptions scenario_reset_from_fiq).2.r 13 = 0xA1 := by
  refine ⟨by decide, ?_, ?_⟩
  · rw [(reset_skips_bank_save scenario_reset_from_fiq (by decide)).2.1]
    decide
  · rw [(reset_skips_bank_save scenario_reset_from_fiq (by decide)).2.2.2.2.2.2.1]
    decide

end Armemu

namespace Armemu

/-- Claim C2 counterexample: in scenario S2 (user mode, pc = 0x1000, SWI
pending, Thumb clear) the svc bank r14 receives 0x1000 = pc + 0, not the
0x1004 the scenario sentence expects. -/
theorem swi_link_value_cex :
    scenario_swi_user.pc = 0x1000 ∧
    scenario_swi_user.cpsr = PSR_MODE_user ∧
    (process_pending_exceptions scenario_swi_user).2.svc_regs.r14 = 0x1000 ∧
    (process_pending_exceptions scenario_swi_user).2.svc_regs.r14 ≠ 0x1004 :=
  ⟨by decide, by decide, by decide, by decide⟩

/-- Claim C2 as amended: for every non-reset class the target bank r14
receives exactly the section 4.3 link value — pc + (Thumb?1:0) for
UNDEFINED and SWI, pc + 4 + (Thumb?1:0) for the others — and the target
bank spsr receives the pre-entry CPSR; an SWI from user mode with
pc = 0x1000 leaves svc r14 = 0x1000 (0x1001 if Thumb was set), svc spsr =
the prior CPSR, PC = 0x8, mode svc, the IRQ mask set and Thumb clear. -/
theorem exception_link_and_spsr :
    (∀ (c : CpuStruct) (k : ExClass), k ≠ ExClass.reset →
      first_pending c = some k →
      getBank (target_bank k) (process_pending_exceptions c).2
        = ⟨(getBank (target_bank k) c).r13, spec_link k c, c.cpsr⟩) ∧
    (process_pending_exceptions scenario_swi_user).2.svc_regs.r14 = 0x1000 ∧
    (process_pending_exceptions scenario_swi_user_thumb).2.svc_regs.r14
        = 0x1001 ∧
    (process_pending_exceptions scenario_swi_user).2.svc_regs.spsr
        = scenario_swi_user.cpsr ∧
    (process_pending_exceptions scenario_swi_user_thumb).2.svc_regs.spsr
        = scenario_swi_user_thumb.cpsr ∧
    (process_pending_exceptions scenario_swi_user).2.r 15 = 0x8 ∧
    (process_pending_exceptions scenario_swi_user).2.cpsr &&& PSR_MODE_MASK
        = PSR_MODE_svc ∧
    (process_pending_exceptions scenario_swi_user).2.cpsr &&& PSR_IRQ_MASK
        ≠ 0 ∧
    (process_pending_exceptions scenario_swi_user).2.cpsr &&& PSR_THUMB = 0 ∧
    (process_pending_exceptions scenario_swi_user_thumb).2.cpsr &&& PSR_THUMB
        = 0 := by
  refine ⟨?_, by decide, by decide, by decide, by decide, by decide, by decide,
    by decide, by decide, by decide⟩
  intro c k hk hfp
  rw [process_spec, hfp]
  cases k with
  | reset => exact absurd rfl hk
  | undef => simp [take_exception, target_bank, getBank, spec_link,
      enter_undefined_und]
  | swi => simp [take_exception, target_bank, getBank, spec_link,
      enter_swi_svc]
  | prefetch => simp [take_exception, target_bank, getBank, spec_link,
      enter_prefetch_abt]
  | data_abt => simp [take_exception, target_bank, getBank, spec_link,
      enter_data_abort_abt]
  | fiq => simp [take_exception, target_bank, getBank, spec_link,
      enter_fiq_fiq]
  | irq => simp [take_exception, target_bank, getBank, spec_link,
      enter_irq_irq]

/-- Witness for the general part of C2 at the S4 scenario (DATA_ABT). -/
theorem exception_link_and_spsr_witness :
    getBank (target_bank ExClass.data_abt)
        (process_pending_exceptions scenario_dabt_irq).2
      = ⟨(getBank (target_bank ExClass.data_abt) scenario_dabt_irq).r13,
         spec_link ExClass.data_abt scenario_dabt_irq,
         scenario_dabt_irq.cpsr⟩ :=
  exception_link_and_spsr.1 scenario_dabt_irq ExClass.data_abt (by decide)
    (by decide)

/-- Claim C4: whenever an exception is taken the resulting CPSR has the
IRQ mask set; every non-reset entry clears the Thumb bit; an FIQ entry
leaves the FIQ mask bit with the value it had before; a RESET entry sets
both masks. -/
theorem exception_entry_mask_invariants :
    ∀ c : CpuStruct, (process_pending_exceptions c).1 = true →
      ((process_pending_exceptions c).2.cpsr &&& PSR_IRQ_MASK ≠ 0) ∧
      (first_pending c ≠ some ExClass.reset →
        (process_pending_exceptions c).2.cpsr &&& PSR_THUMB = 0) ∧
      (first_pending c = some ExClass.fiq →
        (process_pending_exceptions c).2.cpsr &&& PSR_FIQ_MASK
          = c.cpsr &&& PSR_FIQ_MASK) ∧
      (first_pending c = some ExClass.reset →
        (process_pending_exceptions c).2.cpsr &&& PSR_IRQ_MASK ≠ 0 ∧
        (process_pending_exceptions c).2.cpsr &&& PSR_FIQ_MASK ≠ 0) := by
  intro c htaken
  rcases hfp : first_pending c with _ | k
  · rw [process_spec, hfp] at htaken
    simp at htaken
  · rw [process_spec, hfp]
    dsimp only
    cases k with
    | reset =>
        refine ⟨?_, fun h => absurd rfl h, fun h => by simp at h, fun _ => ?_⟩
        · rw [show take_exception ExClass.reset c = enter_reset c from rfl,
            enter_reset_cpsr]
          decide
        · rw [show take_exception ExClass.reset c = enter_reset c from rfl,
            enter_reset_cpsr]
          exact ⟨by decide, by decide⟩
    | undef =>
        refine ⟨?_, fun _ => ?_, fun h => by simp at h, fun h => by simp at h⟩
        · rw [c_irq_mask, and_two_pow_ne]
          exact exception_entry_bit7 _ _ _ _ _ c (by decide)
        · rw [c_thumb, and_two_pow_eq_zero]
          exact exception_entry_bit5 _ _ _ _ _ c (by decide)
    | swi =>
        refine ⟨?_, fun _ => ?_, fun h => by simp at h, fun h => by simp at h⟩
        · rw [c_irq_mask, and_two_pow_ne]
          exact exception_entry_bit7 _ _ _ _ _ c (by decide)
        · rw [c_thumb, and_two_pow_eq_zero]
          exact exception_entry_bit5 _ _ _ _ _ c (by decide)
    | prefetch =>
        refine ⟨?_, fun _ => ?_, fun h => by simp at h, fun h => by simp at h⟩
        · rw [c_irq_mask, and_two_pow_ne]
          exact exception_entry_bit7 _ _ _ _ _ c (by decide)
        · rw [c_thumb, and_two_pow_eq_zero]
          exact exception_entry_bit5 _ _ _ _ _ c (by decide)
    | data_abt =>
        refine ⟨?_, fun _ => ?_, fun h => by simp at h, fun h => by simp at h⟩
        · rw [c_irq_mask, and_two_pow_ne]
          exact exception_entry_bit7 _ _ _ _ _ c (by decide)
        · rw [c_thumb, and_two_pow_eq_zero]
          exact exception_entry_bit5 _ _ _ _ _ c (by decide)
    | fiq =>
        refine ⟨?_, fun _ => ?_, fun _ => ?_, fun h => by simp at h⟩
        · rw [c_irq_mask, and_two_pow_ne]
          exact exception_entry_bit7 _ _ _ _ _ c (by decide)
        · rw [c_thumb, and_two_pow_eq_zero]
          exact exception_entry_bit5 _ _ _ _ _ c (by decide)
        · rw [c_fiq_mask]
          exact and_two_pow_congr _ _ _
            (exception_entry_bit6 _ _ _ _ _ c (by decide))
    | irq =>
        refine ⟨?_, fun _ => ?_, fun h => by simp at h, fun h => by simp at h⟩
        · rw [c_irq_mask, and_two_pow_ne]
          exact exception_entry_bit7 _ _ _ _ _ c (by decide)
        · rw [c_thumb, and_two_pow_eq_zero]
          exact exception_entry_bit5 _ _ _ _ _ c (by decide)

/-- Witness for C4 at the S4 scenario. -/
theorem exception_entry_mask_invariants_witness :
    (process_pending_exceptions scenario_dabt_irq).1 = true ∧
    (process_pending_exceptions scenario_dabt_irq).2.cpsr &&& PSR_IRQ_MASK
        ≠ 0 :=
  ⟨by decide, (exception_entry_mask_invariants scenario_dabt_irq (by decide)).1⟩

end Armemu

namespace Armemu

/-- Claim C7: with the CPSR IRQ mask set and only the IRQ bit pending the
pipeline returns false and leaves the whole state unchanged; with the
mask clear the next call takes the IRQ (vector 0x18, mode irq, irq bank
r14 = pc + 4 when Thumb is clear); a taken IRQ or FIQ keeps its pending
bit, while a taken synchronous class clears exactly its own bit. -/
theorem irq_masking_and_pending_discipline :
    (∀ c : CpuStruct, c.pending_exceptions = EX_IRQ →
      c.cpsr &&& PSR_IRQ_MASK ≠ 0 →
      process_pending_exceptions c = (false, c)) ∧
    (∀ c : CpuStruct, c.pending_exceptions = EX_IRQ →
      c.cpsr &&& PSR_IRQ_MASK = 0 → c.cpsr &&& PSR_THUMB = 0 →
      (process_pending_exceptions c).1 = true ∧
      (process_pending_exceptions c).2.r 15 = 0x18 ∧
      (process_pending_exceptions c).2.cpsr &&& PSR_MODE_MASK
          = PSR_MODE_irq ∧
      (process_pending_exceptions c).2.irq_regs.r14 = (c.pc + 4) % 2 ^ 32) ∧
    (∀ (c : CpuStruct) (k : ExClass), first_pending c = some k →
      ((k = ExClass.fiq ∨ k = ExClass.irq) →
        (process_pending_exceptions c).2.pending_exceptions
          = c.pending_exceptions) ∧
      (k = ExClass.undef →
        (process_pending_exceptions c).2.pending_exceptions
          = c.pending_exceptions &&& (0xffffffff ^^^ EX_UNDEFINED)) ∧
      (k = ExClass.swi →
        (process_pending_exceptions c).2.pending_exceptions
          = c.pending_exceptions &&& (0xffffffff ^^^ EX_SWI)) ∧
      (k = ExClass.prefetch →
        (process_pending_exceptions c).2.pending_exceptions
          = c.pending_exceptions &&& (0xffffffff ^^^ EX_PREFETCH)) ∧
      (k = ExClass.data_abt →
        (process_pending_exceptions c).2.pending_exceptions
          = c.pending_exceptions &&& (0xffffffff ^^^ EX_DATA_ABT))) := by
  refine ⟨?_, ?_, ?_⟩
  · intro c h hm
    simp [process_pending_exceptions, h, hm, EX_RESET, EX_UNDEFINED, EX_SWI,
      EX_PREFETCH, EX_DATA_ABT, EX_FIQ, EX_IRQ,
      show (64 : Nat) &&& 1 = 0 from by decide,
      show (64 : Nat) &&& 2 = 0 from by decide,
      show (64 : Nat) &&& 4 = 0 from by decide,
      show (64 : Nat) &&& 8 = 0 from by decide,
      show (64 : Nat) &&& 16 = 0 from by decide,
      show (64 : Nat) &&& 32 = 0 from by decide,
      show (64 : Nat) &&& 64 = 64 from by decide]
  · intro c h hm ht
    have hp : process_pending_exceptions c = (true, enter_irq c) := by
      simp [process_pending_exceptions, h, hm, EX_RESET, EX_UNDEFINED, EX_SWI,
        EX_PREFETCH, EX_DATA_ABT, EX_FIQ, EX_IRQ,
      show (64 : Nat) &&& 1 = 0 from by decide,
      show (64 : Nat) &&& 2 = 0 from by decide,
      show (64 : Nat) &&& 4 = 0 from by decide,
      show (64 : Nat) &&& 8 = 0 from by decide,
      show (64 : Nat) &&& 16 = 0 from by decide,
      show (64 : Nat) &&& 32 = 0 from by decide,
      show (64 : Nat) &&& 64 = 64 from by decide]
    rw [hp]
    dsimp only
    refine ⟨rfl, exception_entry_r15 _ _ _ _ _ c,
      exception_entry_mode _ _ _ _ _ c (by decide), ?_⟩
    simp [enter_irq_irq, get_condition, ht]
  · intro c k hfp
    rw [process_spec, hfp]
    dsimp only
    cases k with
    | reset =>
        refine ⟨fun h => ?_, fun h => by simp at h, fun h => by simp at h,
          fun h => by simp at h, fun h => by simp at h⟩
        rcases h with h | h <;> exact absurd h (by decide)
    | undef =>
        refine ⟨fun h => ?_, fun _ => exception_entry_pending_some _ _ _ _ _ c,
          fun h => by simp at h, fun h => by simp at h, fun h => by simp at h⟩
        rcases h with h | h <;> exact absurd h (by decide)
    | swi =>
        refine ⟨fun h => ?_, fun h => by simp at h,
          fun _ => exception_entry_pending_some _ _ _ _ _ c,
          fun h => by simp at h, fun h => by simp at h⟩
        rcases h with h | h <;> exact absurd h (by decide)
    | prefetch =>
        refine ⟨fun h => ?_, fun h => by simp at h, fun h => by simp at h,
          fun _ => exception_entry_pending_some _ _ _ _ _ c,
          fun h => by simp at h⟩
        rcases h with h | h <;> exact absurd h (by decide)
    | data_abt =>
        refine ⟨fun h => ?_, fun h => by simp at h, fun h => by simp at h,
          fun h => by simp at h,
          fun _ => exception_entry_pending_some _ _ _ _ _ c⟩
        rcases h with h | h <;> exact absurd h (by decide)
    | fiq =>
        exact ⟨fun _ => exception_entry_pending_none _ _ _ _ c,
          fun h => by simp at h, fun h => by simp at h, fun h => by simp at h,
          fun h => by simp at h⟩
    | irq =>
        exact ⟨fun _ => exception_entry_pending_none _ _ _ _ c,
          fun h => by simp at h, fun h => by simp at h, fun h => by simp at h,
          fun h => by simp at h⟩

/-- Witness for C7 at the S3 scenarios. -/
theorem irq_masking_and_pending_discipline_witness :
    process_pending_exceptions scenario_irq_masked
        = (false, scenario_irq_masked) ∧
    (process_pending_exceptions scenario_irq_clear).2.r 15 = 0x18 ∧
    (process_pending_exceptions scenario_irq_clear).2.irq_regs.r14 = 0x2004 ∧
    (process_pending_exceptions scenario_dabt_irq).2.pending_exceptions
        = scenario_dabt_irq.pending_exceptions
            &&& (0xffffffff ^^^ EX_DATA_ABT) := by
  refine ⟨irq_masking_and_pending_discipline.1 scenario_irq_masked (by decide)
    (by decide), (irq_masking_and_pending_discipline.2.1 scenario_irq_clear
    (by decide) (by decide) (by decide)).2.1, ?_, ?_⟩
  · rw [(irq_masking_and_pending_discipline.2.1 scenario_irq_clear
      (by decide) (by decide) (by decide)).2.2.2]
    decide
  · exact (irq_masking_and_pending_discipline.2.2 scenario_dabt_irq
      ExClass.data_abt (by decide)).2.2.2.2 rfl

end Armemu

namespace Armemu

/-- Claim C6: any sequence of recognised-mode switches that starts in
user mode and ends back in user mode restores the initial active
r13/r14/spsr, and the S5 round trip user-fiq-user-fiq preserves the fiq
bank writes across the re-entry. -/
theorem mode_switch_user_roundtrip :
    (∀ (ms : List Nat) (c : CpuStruct),
      (∀ m ∈ ms, (mode_bank m).isSome) →
      c.cpsr &&& PSR_MODE_MASK = PSR_MODE_user →
      (apply_modes ms c).cpsr &&& PSR_MODE_MASK = PSR_MODE_user →
      (apply_modes ms c).r 13 = c.r 13 ∧
      (apply_modes ms c).r 14 = c.r 14 ∧
      (apply_modes ms c).spsr = c.spsr) ∧
    s5_final.r 13 = 0xF1 ∧ s5_final.r 14 = 0xF2 := by
  refine ⟨?_, by decide, by decide⟩
  intro ms c hms huser hfinal
  have hinv0 : usr_inv (c.r 13) (c.r 14) c.spsr c := by
    left
    refine ⟨?_, rfl, rfl, rfl⟩
    rw [huser]
    decide
  have hinv := usr_inv_fold _ _ _ ms c hms hinv0
  rcases hinv with ⟨_, h13, h14, hsp⟩ | ⟨hcb, _⟩
  · exact ⟨h13, h14, hsp⟩
  · exact absurd
      (show mode_bank ((apply_modes ms c).cpsr &&& PSR_MODE_MASK)
          = some BankId.usr by rw [hfinal]; decide) hcb

/-- Witness for C6: a user-fiq-svc-user trip on concrete registers. -/
theorem mode_switch_user_roundtrip_witness :
    (apply_modes [PSR_MODE_fiq, PSR_MODE_svc, PSR_MODE_user]
        scenario_user_regs).r 13 = scenario_user_regs.r 13 ∧
    (apply_modes [PSR_MODE_fiq, PSR_MODE_svc, PSR_MODE_user]
        scenario_user_regs).r 14 = scenario_user_regs.r 14 ∧
    (apply_modes [PSR_MODE_fiq, PSR_MODE_svc, PSR_MODE_user]
        scenario_user_regs).spsr = scenario_user_regs.spsr :=
  mode_switch_user_roundtrip.1 [PSR_MODE_fiq, PSR_MODE_svc, PSR_MODE_user]
    scenario_user_regs (by decide) (by decide) (by decide)

/-- Claim C8 counterexample: set_cpu_mode with the unrecognised mode
value 0x1e does not panic; it returns normally, even writing the value
into the CPSR mode field. -/
theorem set_cpu_mode_unrecognized_cex :
    set_cpu_mode 0x1e baseCpu = { baseCpu with cpsr := 0x1e } ∧
    (set_cpu_mode 0x1e baseCpu).cpsr &&& PSR_MODE_MASK = 0x1e :=
  ⟨rfl, by decide⟩

/-- Claim C8 as amended: install_coprocessor panics (and installs
nothing) exactly when the coprocessor number is outside 0..15, and in
range it copies the descriptor into slot n; set_cpu_mode with an
unrecognised mode value does not panic: it is silently tolerated, reads
and writes no bank for the target, leaves the active registers and spsr
unchanged, and still writes the mode field. -/
theorem out_of_range_config_behavior :
    (∀ (n : Int) (cp : Nat) (c : CpuStruct),
      install_coprocessor n cp c = none ↔ n < 0 ∨ n > 15) ∧
    (∀ (n : Int) (cp : Nat) (c : CpuStruct), 0 ≤ n → n ≤ 15 →
      install_coprocessor n cp c
        = some { c with coproc := Function.update c.coproc n.toNat cp }) ∧
    (∀ (m : Nat) (c : CpuStruct), mode_bank m = none → m < 2 ^ 5 →
      (set_cpu_mode m c).r = c.r ∧
      (set_cpu_mode m c).spsr = c.spsr ∧
      (set_cpu_mode m c).cpsr &&& PSR_MODE_MASK = m) := by
  refine ⟨?_, ?_, ?_⟩
  · intro n cp c
    by_cases h : n < 0 ∨ n > 15 <;> simp [install_coprocessor, h]
  · intro n cp c h0 h15
    simp [install_coprocessor, show ¬(n < 0 ∨ n > 15) by omega]
  · intro m c hm hlt
    by_cases hsame : c.cpsr &&& PSR_MODE_MASK = m
    · rw [set_cpu_mode_same m c hsame]
      exact ⟨rfl, rfl, hsame⟩
    · simp [set_cpu_mode, if_neg hsame, hm, restore_banked_none,
        save_banked_r, save_banked_spsr, save_banked_cpsr,
        mode_field_or c.cpsr m hlt]

/-- Witness for C8 as amended: slot 16 panics, slot 15 installs, mode
0x1e is tolerated. -/
theorem out_of_range_config_behavior_witness :
    install_coprocessor 16 0xCAFE baseCpu = none ∧
    install_coprocessor 15 5 baseCpu
      = some { baseCpu with coproc := Function.update baseCpu.coproc 15 5 } ∧
    (set_cpu_mode 0x1e baseCpu).cpsr &&& PSR_MODE_MASK = 0x1e :=
  ⟨(out_of_range_config_behavior.1 16 0xCAFE baseCpu).mpr (by omega),
   out_of_range_config_behavior.2.1 15 5 baseCpu (by omega) (by omega),
   (out_of_range_config_behavior.2.2 0x1e baseCpu (by decide) (by decide)).2.2⟩

end Armemu

namespace Armemu

/-- Claim C9: when the taken exception targets the mode the cpu is
already in, the entry writes the link value and old CPSR only into the
target bank: the active r13/r14/spsr are unchanged (the handler does not
see the link in r14), and a later switch to any other recognised mode
overwrites the banked link with the stale active values. -/
theorem same_mode_exception_frame :
    ∀ (c : CpuStruct) (k : ExClass), k ≠ ExClass.reset →
      first_pending c = some k →
      c.cpsr &&& PSR_MODE_MASK = target_mode k →
      ((process_pending_exceptions c).2.r 13 = c.r 13 ∧
       (process_pending_exceptions c).2.r 14 = c.r 14 ∧
       (process_pending_exceptions c).2.spsr = c.spsr) ∧
      getBank (target_bank k) (process_pending_exceptions c).2
        = ⟨(getBank (target_bank k) c).r13, spec_link k c, c.cpsr⟩ ∧
      (∀ m : Nat, (mode_bank m).isSome → m ≠ target_mode k →
        getBank (target_bank k)
            (set_cpu_mode m (process_pending_exceptions c).2)
          = ⟨c.r 13, c.r 14, c.spsr⟩) := by
  intro c k hk hfp hmode
  rw [process_spec, hfp]
  dsimp only
  cases k with
  | reset => exact absurd rfl hk
  | undef =>
      have hact : (enter_undefined c).r 13 = c.r 13 ∧
          (enter_undefined c).r 14 = c.r 14 ∧
          (enter_undefined c).spsr = c.spsr :=
        exception_entry_active_same BankId.und 0x4 0 PSR_MODE_und
          (some EX_UNDEFINED) c hmode
      have hmd : (enter_undefined c).cpsr &&& PSR_MODE_MASK = PSR_MODE_und :=
        exception_entry_mode _ _ _ _ _ c (by decide)
      refine ⟨hact, ?_, ?_⟩
      · simpa [take_exception, target_bank, getBank, spec_link]
          using enter_undefined_und c
      · intro m hm hne
        show getBank BankId.und (set_cpu_mode m (enter_undefined c)) = _
        rw [set_cpu_mode_getBank, hmd,
          if_pos ⟨by decide, fun hx => hne hx.symm⟩,
          hact.1, hact.2.1, hact.2.2]
  | swi =>
      have hact : (enter_swi c).r 13 = c.r 13 ∧
          (enter_swi c).r 14 = c.r 14 ∧ (enter_swi c).spsr = c.spsr :=
        exception_entry_active_same BankId.svc 0x8 0 PSR_MODE_svc
          (some EX_SWI) c hmode
      have hmd : (enter_swi c).cpsr &&& PSR_MODE_MASK = PSR_MODE_svc :=
        exception_entry_mode _ _ _ _ _ c (by decide)
      refine ⟨hact, ?_, ?_⟩
      · simpa [take_exception, target_bank, getBank, spec_link]
          using enter_swi_svc c
      · intro m hm hne
        show getBank BankId.svc (set_cpu_mode m (enter_swi c)) = _
        rw [set_cpu_mode_getBank, hmd,
          if_pos ⟨by decide, fun hx => hne hx.symm⟩,
          hact.1, hact.2.1, hact.2.2]
  | prefetch =>
      have hact : (enter_prefetch c).r 13 = c.r 13 ∧
          (enter_prefetch c).r 14 = c.r 14 ∧
          (enter_prefetch c).spsr = c.spsr :=
        exception_entry_active_same BankId.abt 0xc 4 PSR_MODE_abt
          (some EX_PREFETCH) c hmode
      have hmd : (enter_prefetch c).cpsr &&& PSR_MODE_MASK = PSR_MODE_abt :=
        exception_entry_mode _ _ _ _ _ c (by decide)
      refine ⟨hact, ?_, ?_⟩
      · simpa [take_exception, target_bank, getBank, spec_link]
          using enter_prefetch_abt c
      · intro m hm hne
        show getBank BankId.abt (set_cpu_mode m (enter_prefetch c)) = _
        rw [set_cpu_mode_getBank, hmd,
          if_pos ⟨by decide, fun hx => hne hx.symm⟩,
          hact.1, hact.2.1, hact.2.2]
  | data_abt =>
      have hact : (enter_data_abort c).r 13 = c.r 13 ∧
          (enter_data_abort c).r 14 = c.r 14 ∧
          (enter_data_abort c).spsr = c.spsr :=
        exception_entry_active_same BankId.abt 0x10 4 PSR_MODE_abt
          (some EX_DATA_ABT) c hmode
      have hmd : (enter_data_abort c).cpsr &&& PSR_MODE_MASK = PSR_MODE_abt :=
        exception_entry_mode _ _ _ _ _ c (by decide)
      refine ⟨hact, ?_, ?_⟩
      · simpa [take_exception, target_bank, getBank, spec_link]
          using enter_data_abort_abt c
      · intro m hm hne
        show getBank BankId.abt (set_cpu_mode m (enter_data_abort c)) = _
        rw [set_cpu_mode_getBank, hmd,
          if_pos ⟨by decide, fun hx => hne hx.symm⟩,
          hact.1, hact.2.1, hact.2.2]
  | fiq =>
      have hact : (enter_fiq c).r 13 = c.r 13 ∧
          (enter_fiq c).r 14 = c.r 14 ∧ (enter_fiq c).spsr = c.spsr :=
        exception_entry_active_same BankId.fiq 0x1c 4 PSR_MODE_fiq none c hmode
      have hmd : (enter_fiq c).cpsr &&& PSR_MODE_MASK = PSR_MODE_fiq :=
        exception_entry_mode _ _ _ _ _ c (by decide)
      refine ⟨hact, ?_, ?_⟩
      · simpa [take_exception, target_bank, getBank, spec_link]
          using enter_fiq_fiq c
      · intro m hm hne
        show getBank BankId.fiq (set_cpu_mode m (enter_fiq c)) = _
        rw [set_cpu_mode_getBank, hmd,
          if_pos ⟨by decide, fun hx => hne hx.symm⟩,
          hact.1, hact.2.1, hact.2.2]
  | irq =>
      have hact : (enter_irq c).r 13 = c.r 13 ∧
          (enter_irq c).r 14 = c.r 14 ∧ (enter_irq c).spsr = c.spsr :=
        exception_entry_active_same BankId.irq 0x18 4 PSR_MODE_irq none c hmode
      have hmd : (enter_irq c).cpsr &&& PSR_MODE_MASK = PSR_MODE_irq :=
        exception_entry_mode _ _ _ _ _ c (by decide)
      refine ⟨hact, ?_, ?_⟩
      · simpa [take_exception, target_bank, getBank, spec_link]
          using enter_irq_irq c
      · intro m hm hne
        show getBank BankId.irq (set_cpu_mode m (enter_irq c)) = _
        rw [set_cpu_mode_getBank, hmd,
          if_pos ⟨by decide, fun hx => hne hx.symm⟩,
          hact.1, hact.2.1, hact.2.2]

/-- Witness for C9: an SWI taken while already in svc mode. -/
theorem same_mode_exception_frame_witness :
    ((process_pending_exceptions scenario_swi_svc).2.r 14
        = scenario_swi_svc.r 14) ∧
    getBank (target_bank ExClass.swi)
        (process_pending_exceptions scenario_swi_svc).2
      = ⟨(getBank (target_bank ExClass.swi) scenario_swi_svc).r13,
         spec_link ExClass.swi scenario_swi_svc, scenario_swi_svc.cpsr⟩ ∧
    getBank (target_bank ExClass.swi)
        (set_cpu_mode PSR_MODE_irq
          (process_pending_exceptions scenario_swi_svc).2)
      = ⟨scenario_swi_svc.r 13, scenario_swi_svc.r 14,
         scenario_swi_svc.spsr⟩ := by
  have H := same_mode_exception_frame scenario_swi_svc ExClass.swi (by decide)
    (by decide) (by decide)
  exact ⟨H.1.2.1, H.2.1, H.2.2 PSR_MODE_irq (by decide) (by decide)⟩

end Armemu
